import Mathlib

/-!
Shallow embedding of the Blue Carbon sequestration calculator and
anomaly/credibility detector (src/unnamed/part_001) together with the
reference constants (src/unnamed/part_002).

JavaScript numbers are modelled as rationals (ℚ); `Math.round` is
modelled by `jsRound` (half rounds toward +∞, which is JavaScript's
behaviour on finite values).  JavaScript division by zero yields
`Infinity`/`NaN`; in ℚ, `x / 0 = 0` — every place where this matters is
noted at the claim that depends on it.
-/

/-- The four recognised ecosystem tags (keys of `SEQUESTRATION_FACTORS`). -/
inductive EcosystemType where
  | mangrove
  | seagrass
  | salt_marsh
  | kelp_forest
deriving DecidableEq, Repr

/-- `SEQUESTRATION_FACTORS` from src/unnamed/part_002 (tons CO2/ha/year). -/
def SEQUESTRATION_FACTORS : EcosystemType → ℚ
  | .mangrove => 10.15
  | .seagrass => 8.7
  | .salt_marsh => 6.8
  | .kelp_forest => 12.3

/-- The three named buffer percentages of a buffer set. -/
structure Buffers where
  uncertainty : ℚ
  mortality : ℚ
  verification : ℚ
deriving DecidableEq, Repr

/-- `DEFAULT_BUFFERS` from src/unnamed/part_002. -/
def DEFAULT_BUFFERS : Buffers := ⟨10, 15, 5⟩

/-- `IMPACT_EQUIVALENCES` from src/unnamed/part_002. -/
structure ImpactRatios where
  cars_removed_per_year : ℚ
  homes_powered_per_year : ℚ
  trees_planted : ℚ
deriving DecidableEq, Repr

def IMPACT_EQUIVALENCES : ImpactRatios := ⟨0.45, 0.12, 16⟩

/-- JavaScript `Math.round` on a finite number: half rounds toward +∞. -/
def jsRound (x : ℚ) : ℤ := ⌊x + 1 / 2⌋

/-- `Math.round(x * 100) / 100`, the 2-decimal rounding used by both
calculator modes. -/
def round2 (x : ℚ) : ℚ := (jsRound (x * 100) : ℚ) / 100

/-- The `equivalences` record of a `CalculationResult`. -/
structure Equivalences where
  cars_removed : ℤ
  homes_powered : ℤ
  trees_planted : ℤ
deriving DecidableEq, Repr

/-- `CalculationResult`: `policy_area_needed` is `none` in forward mode and
`some` in policy mode. -/
structure CalculationResult where
  annual_absorption : ℚ
  cumulative_absorption : ℚ
  equivalences : Equivalences
  policy_area_needed : Option ℤ
deriving DecidableEq, Repr

/-- `calculateCarbonSequestration` from src/unnamed/part_001 (lines 26–62).
The caller-side parameter defaults (`years = 20`, `buffers =
DEFAULT_BUFFERS`) are supplied explicitly by the caller here. -/
def calculateCarbonSequestration (area_m2 : ℚ) (ecosystem_type : EcosystemType)
    (years : ℚ) (buffers : Buffers) : CalculationResult :=
  let area_hectares := area_m2 / 10000
  let base_sequestration := SEQUESTRATION_FACTORS ecosystem_type
  let gross_annual_absorption := area_hectares * base_sequestration
  let total_buffer_percentage :=
    buffers.uncertainty + buffers.mortality + buffers.verification
  let buffer_factor := (100 - total_buffer_percentage) / 100
  let annual_absorption := gross_annual_absorption * buffer_factor
  let cumulative_absorption := annual_absorption * years
  let equivalences : Equivalences :=
    ⟨jsRound (annual_absorption * IMPACT_EQUIVALENCES.cars_removed_per_year),
     jsRound (annual_absorption * IMPACT_EQUIVALENCES.homes_powered_per_year),
     jsRound (cumulative_absorption * IMPACT_EQUIVALENCES.trees_planted)⟩
  ⟨round2 annual_absorption, round2 cumulative_absorption, equivalences, none⟩

/-- `calculateRequiredArea` from src/unnamed/part_001 (lines 64–94). -/
def calculateRequiredArea (target_co2_reduction : ℚ)
    (ecosystem_type : EcosystemType) (years : ℚ) (buffers : Buffers) :
    CalculationResult :=
  let base_sequestration := SEQUESTRATION_FACTORS ecosystem_type
  let total_buffer_percentage :=
    buffers.uncertainty + buffers.mortality + buffers.verification
  let buffer_factor := (100 - total_buffer_percentage) / 100
  let effective_sequestration := base_sequestration * buffer_factor
  let required_hectares := target_co2_reduction / (effective_sequestration * years)
  let required_m2 := required_hectares * 10000
  let equivalences : Equivalences :=
    ⟨jsRound (target_co2_reduction * IMPACT_EQUIVALENCES.cars_removed_per_year / years),
     jsRound (target_co2_reduction * IMPACT_EQUIVALENCES.homes_powered_per_year / years),
     jsRound (target_co2_reduction * IMPACT_EQUIVALENCES.trees_planted)⟩
  ⟨round2 (target_co2_reduction / years), round2 target_co2_reduction,
   equivalences, some (jsRound required_m2)⟩

/-- The part of a project record read by `detectAnomalies`. -/
structure CarbonCalcs where
  annual_co2_absorption : ℚ
deriving DecidableEq, Repr

structure ProjectSnapshot where
  area_m2 : ℚ
  ecosystem_type : EcosystemType
  carbon_calculations : CarbonCalcs
deriving DecidableEq, Repr

/-- A historical snapshot; `detectAnomalies` only reads `area_m2`. -/
structure HistoricalSnapshot where
  area_m2 : ℚ
deriving DecidableEq, Repr

structure AnomalyReport where
  is_suspicious : Bool
  flags : List String
  credibility_impact : ℤ
deriving DecidableEq, Repr

/-- `detectAnomalies` from src/unnamed/part_001 (lines 96–136).  The source
reads `historical_data[length-1]` (latest) and `historical_data[length-2]`
(previous), guarded by `length > 0` and by `previous` being defined — i.e.
the growth check runs exactly when the list has at least two entries; the
two indexed entries are the first two elements of the reversed list. -/
def detectAnomalies (project : ProjectSnapshot)
    (historical_data : List HistoricalSnapshot) : AnomalyReport :=
  let growth : List String × ℤ :=
    match historical_data.reverse with
    | latest :: previous :: _ =>
      let growth_rate := (latest.area_m2 - previous.area_m2) / previous.area_m2
      if growth_rate > 1 then (["Unrealistic area expansion detected"], 25)
      else ([], 0)
    | _ => ([], 0)
  let theoretical_max := SEQUESTRATION_FACTORS project.ecosystem_type * 1.5
  let impossible : List String × ℤ :=
    if project.carbon_calculations.annual_co2_absorption >
        theoretical_max * (project.area_m2 / 10000) then
      (["Carbon sequestration estimates exceed theoretical maximum"], 30)
    else ([], 0)
  let inconsistent : List String × ℤ :=
    if project.area_m2 < 1000 then
      (["Project area unusually small for ecosystem restoration"], 10)
    else ([], 0)
  let flags := growth.1 ++ impossible.1 ++ inconsistent.1
  ⟨flags.length > 0, flags, growth.2 + impossible.2 + inconsistent.2⟩

/-- The growth rate over the two most recent historical entries, when at
least two exist (spec §4.3 rule 1, stated via `getLast?`/`dropLast`). -/
def recentGrowthRate (historical_data : List HistoricalSnapshot) : Option ℚ :=
  match historical_data.getLast?, historical_data.dropLast.getLast? with
  | some latest, some previous =>
      some ((latest.area_m2 - previous.area_m2) / previous.area_m2)
  | _, _ => none

/-- Penalty of the theoretical-maximum rule, in isolation. -/
def theoreticalMaxPenalty (project : ProjectSnapshot) : ℤ :=
  if project.carbon_calculations.annual_co2_absorption >
      SEQUESTRATION_FACTORS project.ecosystem_type * 1.5 * (project.area_m2 / 10000)
  then 30 else 0

/-- Penalty of the minimum-area rule, in isolation. -/
def minimumAreaPenalty (project : ProjectSnapshot) : ℤ :=
  if project.area_m2 < 1000 then 10 else 0

/-- Penalty of the growth-rate rule, in isolation. -/
def growthPenalty (historical_data : List HistoricalSnapshot) : ℤ :=
  match recentGrowthRate historical_data with
  | some r => if r > 1 then 25 else 0
  | none => 0

/-! ### Basic lemmas about the rounding functions -/

lemma jsRound_mono {x y : ℚ} (h : x ≤ y) : jsRound x ≤ jsRound y :=
  Int.floor_le_floor (by linarith)

lemma abs_jsRound_sub_le (x : ℚ) : |(jsRound x : ℚ) - x| ≤ 1 / 2 := by
  rw [abs_le]
  constructor
  · have h := Int.lt_floor_add_one (x + 1 / 2)
    unfold jsRound
    push_cast at h ⊢
    linarith
  · have h := Int.floor_le (x + 1 / 2)
    unfold jsRound
    push_cast at h ⊢
    linarith

lemma round2_mono {x y : ℚ} (h : x ≤ y) : round2 x ≤ round2 y := by
  unfold round2
  have := jsRound_mono (mul_le_mul_of_nonneg_right h (by norm_num : (0:ℚ) ≤ 100))
  have : ((jsRound (x * 100) : ℚ)) ≤ (jsRound (y * 100) : ℚ) := by exact_mod_cast this
  linarith

lemma abs_round2_sub_le (x : ℚ) : |round2 x - x| ≤ 1 / 200 := by
  have h := abs_jsRound_sub_le (x * 100)
  unfold round2
  rw [abs_le] at h ⊢
  obtain ⟨h1, h2⟩ := h
  constructor
  · linarith
  · linarith

lemma SEQUESTRATION_FACTORS_nonneg (e : EcosystemType) :
    0 ≤ SEQUESTRATION_FACTORS e := by
  cases e <;> norm_num [SEQUESTRATION_FACTORS]

/-! ### Claims -/

/-- C1: the spec demands that invalid inputs (non-positive area/horizon,
buffer sum ≥ 100, non-positive target) fail with `InvalidInput`.  The code
contains no such check: at the failing forward input
`area_m2 = -10000, mangrove, years = 20, default buffers` it silently
returns a numeric result with negative absorption, and at the failing
policy input `target = 1000, mangrove, years = 20, buffers ⟨60, 40, 0⟩`
(buffer sum = 100, so `effective_rate * years = 0`) it silently returns a
result whose area comes from a division by zero instead of failing. -/
theorem C1_invalid_inputs_not_rejected :
    (calculateCarbonSequestration (-10000) .mangrove 20 DEFAULT_BUFFERS).annual_absorption
        = -71 / 10 ∧
    (calculateCarbonSequestration (-10000) .mangrove 20 DEFAULT_BUFFERS).annual_absorption < 0 ∧
    (calculateRequiredArea 1000 .mangrove 20 ⟨60, 40, 0⟩).policy_area_needed = some 0 := by
  refine ⟨?_, ?_, ?_⟩ <;>
    simp only [calculateCarbonSequestration, calculateRequiredArea, SEQUESTRATION_FACTORS,
      DEFAULT_BUFFERS, IMPACT_EQUIVALENCES, round2, jsRound] <;>
    norm_num

/-- C4: worked example of forward mode — mangrove, `area_m2 = 100000`,
`years = 20`, default buffers: annual 71.05, cumulative 1421.0,
cars 32, homes 9, trees 22736. -/
theorem C4_worked_example_forward :
    (calculateCarbonSequestration 100000 .mangrove 20 DEFAULT_BUFFERS).annual_absorption
        = 71.05 ∧
    (calculateCarbonSequestration 100000 .mangrove 20 DEFAULT_BUFFERS).cumulative_absorption
        = 1421.0 ∧
    (calculateCarbonSequestration 100000 .mangrove 20 DEFAULT_BUFFERS).equivalences
        = ⟨32, 9, 22736⟩ := by
  refine ⟨?_, ?_, ?_⟩ <;>
    simp only [calculateCarbonSequestration, SEQUESTRATION_FACTORS,
      DEFAULT_BUFFERS, IMPACT_EQUIVALENCES, round2, jsRound] <;>
    norm_num

/-- C5: in policy mode the equivalences are derived from the target
reduction (`cars = round(target*0.45/years)`,
`homes = round(target*0.12/years)`, `trees = round(target*16)`), not from
the computed area; and for seagrass, target 1000 t, horizon 20, default
buffers the returned `policy_area_needed` is 82102 m². -/
theorem C5_policy_equivalences_from_target (target years : ℚ)
    (e : EcosystemType) (b : Buffers) (ht : 0 < target) (hy : 0 < years)
    (hb : b.uncertainty + b.mortality + b.verification < 100) :
    ((calculateRequiredArea target e years b).equivalences.cars_removed
        = jsRound (target * 0.45 / years) ∧
     (calculateRequiredArea target e years b).equivalences.homes_powered
        = jsRound (target * 0.12 / years) ∧
     (calculateRequiredArea target e years b).equivalences.trees_planted
        = jsRound (target * 16)) ∧
    (calculateRequiredArea 1000 .seagrass 20 DEFAULT_BUFFERS).policy_area_needed
        = some 82102 := by
  refine ⟨⟨rfl, rfl, rfl⟩, ?_⟩
  simp only [calculateRequiredArea, SEQUESTRATION_FACTORS, DEFAULT_BUFFERS,
    IMPACT_EQUIVALENCES, round2, jsRound]
  norm_num

theorem C5_policy_equivalences_from_target_witness :
    (0 < (1000:ℚ) ∧ 0 < (20:ℚ) ∧
      DEFAULT_BUFFERS.uncertainty + DEFAULT_BUFFERS.mortality +
        DEFAULT_BUFFERS.verification < 100) ∧
    (((calculateRequiredArea 1000 .seagrass 20 DEFAULT_BUFFERS).equivalences.cars_removed
        = jsRound (1000 * 0.45 / 20) ∧
      (calculateRequiredArea 1000 .seagrass 20 DEFAULT_BUFFERS).equivalences.homes_powered
        = jsRound (1000 * 0.12 / 20) ∧
      (calculateRequiredArea 1000 .seagrass 20 DEFAULT_BUFFERS).equivalences.trees_planted
        = jsRound (1000 * 16)) ∧
     (calculateRequiredArea 1000 .seagrass 20 DEFAULT_BUFFERS).policy_area_needed
        = some 82102) :=
  ⟨⟨by norm_num, by norm_num, by norm_num [DEFAULT_BUFFERS]⟩,
   C5_policy_equivalences_from_target 1000 20 .seagrass DEFAULT_BUFFERS
     (by norm_num) (by norm_num) (by norm_num [DEFAULT_BUFFERS])⟩

/-- C10: in policy mode the absorption fields echo the requested target:
`annual_absorption = round2 (target / years)` and
`cumulative_absorption = round2 target`. -/
theorem C10_policy_absorption_echoes_target (target years : ℚ)
    (e : EcosystemType) (b : Buffers) (hy : years ≠ 0) :
    (calculateRequiredArea target e years b).annual_absorption
        = round2 (target / years) ∧
    (calculateRequiredArea target e years b).cumulative_absorption
        = round2 target :=
  ⟨rfl, rfl⟩

theorem C10_policy_absorption_echoes_target_witness :
    (20:ℚ) ≠ 0 ∧
    ((calculateRequiredArea 1000 .seagrass 20 DEFAULT_BUFFERS).annual_absorption
        = round2 (1000 / 20) ∧
     (calculateRequiredArea 1000 .seagrass 20 DEFAULT_BUFFERS).cumulative_absorption
        = round2 1000) :=
  ⟨by norm_num,
   C10_policy_absorption_echoes_target 1000 20 .seagrass DEFAULT_BUFFERS (by norm_num)⟩

/-- Rounding each of `a` and `a * y` to 2 decimals independently keeps
`cumulative = annual * years` only up to `(y + 1) / 200`. -/
lemma round2_mul_bound (a y : ℚ) (hy : 0 < y) :
    |round2 (a * y) - round2 a * y| ≤ (y + 1) / 200 := by
  have h1 := abs_round2_sub_le (a * y)
  have h2 := abs_round2_sub_le a
  have key : round2 (a * y) - round2 a * y
      = (round2 (a * y) - a * y) + (a - round2 a) * y := by ring
  rw [key]
  calc |(round2 (a * y) - a * y) + (a - round2 a) * y|
      ≤ |round2 (a * y) - a * y| + |(a - round2 a) * y| := abs_add _ _
    _ = |round2 (a * y) - a * y| + |round2 a - a| * y := by
        rw [abs_mul, abs_sub_comm a, abs_of_pos hy]
    _ ≤ 1 / 200 + (1 / 200) * y := by
        exact add_le_add h1 (mul_le_mul_of_nonneg_right h2 hy.le)
    _ = (y + 1) / 200 := by ring

/-- C2 counterexample: at the valid forward input `area_m2 = 7`, mangrove,
`years = 1000`, default buffers, the returned annual absorption rounds to 0
while the returned cumulative absorption is 4.97, so the claimed 0.01
tolerance between `cumulative` and `annual * years` fails. -/
theorem C2_counterexample :
    (0 < (7:ℚ) ∧ 0 < (1000:ℚ) ∧
      DEFAULT_BUFFERS.uncertainty + DEFAULT_BUFFERS.mortality +
        DEFAULT_BUFFERS.verification < 100) ∧
    ¬ |(calculateCarbonSequestration 7 .mangrove 1000 DEFAULT_BUFFERS).cumulative_absorption -
        (calculateCarbonSequestration 7 .mangrove 1000 DEFAULT_BUFFERS).annual_absorption
          * 1000| ≤ 1 / 100 := by
  refine ⟨⟨by norm_num, by norm_num, by norm_num [DEFAULT_BUFFERS]⟩, ?_⟩
  simp only [calculateCarbonSequestration, SEQUESTRATION_FACTORS, DEFAULT_BUFFERS,
    round2, jsRound]
  intro hcontra
  rw [abs_le] at hcontra
  obtain ⟨hlo, hhi⟩ := hcontra
  norm_num at hlo hhi

/-- C2 amended: for every valid forward-mode input the returned values
satisfy `|cumulative_absorption - annual_absorption * years| ≤
(years + 1) / 200` (the independent 2-decimal roundings can drift by up to
half a cent each, the annual one amplified by the horizon), not the flat
0.01 the claim states. -/
theorem C2_amended_cumulative_tolerance (area_m2 years : ℚ) (e : EcosystemType)
    (b : Buffers) (ha : 0 < area_m2) (hy : 0 < years)
    (hb : b.uncertainty + b.mortality + b.verification < 100) :
    |(calculateCarbonSequestration area_m2 e years b).cumulative_absorption -
      (calculateCarbonSequestration area_m2 e years b).annual_absorption * years|
      ≤ (years + 1) / 200 := by
  simp only [calculateCarbonSequestration]
  exact round2_mul_bound _ years hy

theorem C2_amended_cumulative_tolerance_witness :
    (0 < (100000:ℚ) ∧ 0 < (20:ℚ) ∧
      DEFAULT_BUFFERS.uncertainty + DEFAULT_BUFFERS.mortality +
        DEFAULT_BUFFERS.verification < 100) ∧
    |(calculateCarbonSequestration 100000 .mangrove 20 DEFAULT_BUFFERS).cumulative_absorption -
      (calculateCarbonSequestration 100000 .mangrove 20 DEFAULT_BUFFERS).annual_absorption
        * 20| ≤ (20 + 1) / 200 :=
  ⟨⟨by norm_num, by norm_num, by norm_num [DEFAULT_BUFFERS]⟩,
   C2_amended_cumulative_tolerance 100000 20 .mangrove DEFAULT_BUFFERS
     (by norm_num) (by norm_num) (by norm_num [DEFAULT_BUFFERS])⟩

/-- C7 counterexample: with buffer sum 200 (buffer factor −1) a larger area
yields a strictly smaller annual absorption (−20.3 < −10.15), so area
monotonicity fails without a precondition on the buffer sum. -/
theorem C7_counterexample :
    ¬ ((calculateCarbonSequestration 10000 .mangrove 20 ⟨200, 0, 0⟩).annual_absorption ≤
       (calculateCarbonSequestration 20000 .mangrove 20 ⟨200, 0, 0⟩).annual_absorption) := by
  simp only [calculateCarbonSequestration, SEQUESTRATION_FACTORS, round2, jsRound]
  norm_num

/-- C7 amended: with the added precondition `buffer sum ≤ 100` (non-negative
buffer factor), increasing `area_m2` with all other inputs fixed never
decreases the returned annual absorption. -/
theorem C7_amended_area_monotonicity (a1 a2 years : ℚ) (e : EcosystemType)
    (b : Buffers) (hb : b.uncertainty + b.mortality + b.verification ≤ 100)
    (h12 : a1 ≤ a2) :
    (calculateCarbonSequestration a1 e years b).annual_absorption ≤
    (calculateCarbonSequestration a2 e years b).annual_absorption := by
  simp only [calculateCarbonSequestration]
  apply round2_mono
  have hk := SEQUESTRATION_FACTORS_nonneg e
  have hf : (0:ℚ) ≤ (100 - (b.uncertainty + b.mortality + b.verification)) / 100 := by
    apply div_nonneg _ (by norm_num)
    linarith
  apply mul_le_mul_of_nonneg_right _ hf
  apply mul_le_mul_of_nonneg_right _ hk
  linarith

theorem C7_amended_area_monotonicity_witness :
    (DEFAULT_BUFFERS.uncertainty + DEFAULT_BUFFERS.mortality +
        DEFAULT_BUFFERS.verification ≤ 100 ∧ (10000:ℚ) ≤ 20000) ∧
    (calculateCarbonSequestration 10000 .mangrove 20 DEFAULT_BUFFERS).annual_absorption ≤
    (calculateCarbonSequestration 20000 .mangrove 20 DEFAULT_BUFFERS).annual_absorption :=
  ⟨⟨by norm_num [DEFAULT_BUFFERS], by norm_num⟩,
   C7_amended_area_monotonicity 10000 20000 20 .mangrove DEFAULT_BUFFERS
     (by norm_num [DEFAULT_BUFFERS]) (by norm_num)⟩

/-- For a fixed non-negative area and rate, a larger total buffer percentage
never yields a larger rounded annual absorption. -/
lemma round2_annual_anti (area k s t : ℚ) (hk : 0 ≤ k) (ha : 0 ≤ area)
    (hst : s ≤ t) :
    round2 (area / 10000 * k * ((100 - t) / 100)) ≤
    round2 (area / 10000 * k * ((100 - s) / 100)) := by
  apply round2_mono
  have h1 : (100 - t) / 100 ≤ (100 - s) / 100 := by linarith
  have h2 : (0:ℚ) ≤ area / 10000 * k := by positivity
  exact mul_le_mul_of_nonneg_left h1 h2

/-- C8: for a forward-mode input (positive area), raising any single buffer
percentage while the other two and all remaining inputs stay fixed never
raises the returned annual absorption. -/
theorem C8_buffer_monotonicity (area_m2 years x y o1 o2 : ℚ)
    (e : EcosystemType) (ha : 0 < area_m2) (hxy : x ≤ y) :
    ((calculateCarbonSequestration area_m2 e years ⟨y, o1, o2⟩).annual_absorption ≤
      (calculateCarbonSequestration area_m2 e years ⟨x, o1, o2⟩).annual_absorption) ∧
    ((calculateCarbonSequestration area_m2 e years ⟨o1, y, o2⟩).annual_absorption ≤
      (calculateCarbonSequestration area_m2 e years ⟨o1, x, o2⟩).annual_absorption) ∧
    ((calculateCarbonSequestration area_m2 e years ⟨o1, o2, y⟩).annual_absorption ≤
      (calculateCarbonSequestration area_m2 e years ⟨o1, o2, x⟩).annual_absorption) := by
  have hk := SEQUESTRATION_FACTORS_nonneg e
  refine ⟨?_, ?_, ?_⟩ <;> simp only [calculateCarbonSequestration] <;>
    exact round2_annual_anti area_m2 (SEQUESTRATION_FACTORS e) _ _ hk ha.le (by linarith)

theorem C8_buffer_monotonicity_witness :
    (0 < (100000:ℚ) ∧ (10:ℚ) ≤ 20) ∧
    (((calculateCarbonSequestration 100000 .mangrove 20 ⟨20, 15, 5⟩).annual_absorption ≤
       (calculateCarbonSequestration 100000 .mangrove 20 ⟨10, 15, 5⟩).annual_absorption) ∧
     ((calculateCarbonSequestration 100000 .mangrove 20 ⟨15, 20, 5⟩).annual_absorption ≤
       (calculateCarbonSequestration 100000 .mangrove 20 ⟨15, 10, 5⟩).annual_absorption) ∧
     ((calculateCarbonSequestration 100000 .mangrove 20 ⟨15, 5, 20⟩).annual_absorption ≤
       (calculateCarbonSequestration 100000 .mangrove 20 ⟨15, 5, 10⟩).annual_absorption)) :=
  ⟨⟨by norm_num, by norm_num⟩,
   C8_buffer_monotonicity 100000 20 10 20 15 5 .mangrove (by norm_num) (by norm_num)⟩

/-- C3 counterexample, two instances of the valid-but-broken round trip.
First, at `area_m2 = 10000`, mangrove, `years = 1`, default buffers, the
forward cumulative absorption rounds 7.105 up to 7.11; feeding that back as
target yields `policy_area_needed = 10007`, 7 m² away from the original
area.  Second, even at the default configuration (default buffers,
horizon 20) the claim fails for salt_marsh, whose
`rate * buffer_factor * years = 6.8 * 0.7 * 20 = 95.2` amplifies the
target's rounding error past 1: `area_m2 = 2375/238 ≈ 9.979` has exact
cumulative 0.095, which rounds to 0.1 and recovers
`policy_area_needed = 11`, and `11 - 2375/238 = 243/238 > 1`. -/
theorem C3_counterexample :
    ((0 < (10000:ℚ) ∧ 0 < (1:ℚ) ∧
       DEFAULT_BUFFERS.uncertainty + DEFAULT_BUFFERS.mortality +
         DEFAULT_BUFFERS.verification < 100) ∧
     (calculateRequiredArea
         (calculateCarbonSequestration 10000 .mangrove 1 DEFAULT_BUFFERS).cumulative_absorption
         .mangrove 1 DEFAULT_BUFFERS).policy_area_needed = some 10007 ∧
     ¬ |((10007:ℤ) : ℚ) - 10000| ≤ 1) ∧
    ((0 < (2375/238:ℚ) ∧ 0 < (20:ℚ)) ∧
     (calculateRequiredArea
         (calculateCarbonSequestration (2375/238) .salt_marsh 20
           DEFAULT_BUFFERS).cumulative_absorption
         .salt_marsh 20 DEFAULT_BUFFERS).policy_area_needed = some 11 ∧
     ¬ |((11:ℤ) : ℚ) - 2375/238| ≤ 1) := by
  refine ⟨⟨⟨by norm_num, by norm_num, by norm_num [DEFAULT_BUFFERS]⟩, ?_, ?_⟩,
    ⟨⟨by norm_num, by norm_num⟩, ?_, ?_⟩⟩
  · simp only [calculateCarbonSequestration, calculateRequiredArea, SEQUESTRATION_FACTORS,
      DEFAULT_BUFFERS, IMPACT_EQUIVALENCES, round2, jsRound]
    norm_num
  · intro hcon
    rw [abs_le] at hcon
    have h := hcon.2
    push_cast at h
    linarith
  · simp only [calculateCarbonSequestration, calculateRequiredArea, SEQUESTRATION_FACTORS,
      DEFAULT_BUFFERS, IMPACT_EQUIVALENCES, round2, jsRound]
    norm_num
  · intro hcon
    rw [abs_le] at hcon
    have h := hcon.2
    push_cast at h
    linarith

/-- Feeding the 2-decimal rounding of the exact cumulative absorption back
through the inverse formula recovers the area up to the half-integer
rounding of the area plus the rounding error of the target amplified by
`10000 / (rate * buffer_factor * years)`; when that product is at least
100 the total error is at most 1. -/
lemma roundtrip_area_bound (area k f years : ℚ) (hR : 100 ≤ k * f * years) :
    |(jsRound (round2 (area / 10000 * k * f * years) / (k * f * years) * 10000) : ℚ)
      - area| ≤ 1 := by
  set R := k * f * years with hR_def
  have hR0 : (0:ℚ) < R := lt_of_lt_of_le (by norm_num) hR
  set x := area / 10000 * k * f * years with hx_def
  have hxR : x = area * R / 10000 := by rw [hx_def, hR_def]; ring
  have hE : |round2 x - x| ≤ 1 / 200 := abs_round2_sub_le x
  set E := round2 x - x with hE_def
  have ht : round2 x = x + E := by rw [hE_def]; ring
  have harg : round2 x / R * 10000 = area + E * 10000 / R := by
    rw [ht, hxR]
    field_simp
    ring
  rw [harg]
  have h1 := abs_jsRound_sub_le (area + E * 10000 / R)
  have h2 : |E * 10000 / R| ≤ 1 / 2 := by
    rw [abs_div, abs_mul, abs_of_pos hR0]
    have h10 : |(10000:ℚ)| = 10000 := by norm_num
    rw [h10, div_le_iff₀ hR0]
    nlinarith [abs_nonneg E]
  calc |(jsRound (area + E * 10000 / R) : ℚ) - area|
      = |((jsRound (area + E * 10000 / R) : ℚ) - (area + E * 10000 / R))
          + E * 10000 / R| := by
        rw [show (jsRound (area + E * 10000 / R) : ℚ) - area
            = ((jsRound (area + E * 10000 / R) : ℚ) - (area + E * 10000 / R))
              + E * 10000 / R from by ring]
    _ ≤ |(jsRound (area + E * 10000 / R) : ℚ) - (area + E * 10000 / R)|
          + |E * 10000 / R| := abs_add _ _
    _ ≤ 1 / 2 + 1 / 2 := add_le_add h1 h2
    _ = 1 := by norm_num

/-- C3 amended: the forward→inverse round trip recovers the original area
to within ±1 m² provided additionally that
`rate * buffer_factor * years ≥ 100`.  At default buffers and horizon 20
this holds for mangrove (142.1), seagrass (121.8) and kelp_forest (172.2)
but not for salt_marsh (95.2), where the ±1 bound genuinely fails (second
instance of the counterexample); without the extra hypothesis the target's
2-decimal rounding error, amplified by `10000 / (rate*buffer_factor*years)`,
can move the recovered area by far more than 1 m². -/
theorem C3_amended_roundtrip (area_m2 years : ℚ) (e : EcosystemType)
    (b : Buffers) (ha : 0 < area_m2) (hy : 0 < years)
    (hb : b.uncertainty + b.mortality + b.verification < 100)
    (hr : 100 ≤ SEQUESTRATION_FACTORS e *
        ((100 - (b.uncertainty + b.mortality + b.verification)) / 100) * years) :
    ∃ pa : ℤ,
      (calculateRequiredArea
          (calculateCarbonSequestration area_m2 e years b).cumulative_absorption
          e years b).policy_area_needed = some pa ∧
      |(pa : ℚ) - area_m2| ≤ 1 := by
  simp only [calculateCarbonSequestration, calculateRequiredArea]
  exact ⟨_, rfl, roundtrip_area_bound area_m2 (SEQUESTRATION_FACTORS e) _ years hr⟩

theorem C3_amended_roundtrip_witness :
    (0 < (100000:ℚ) ∧ 0 < (20:ℚ) ∧
      DEFAULT_BUFFERS.uncertainty + DEFAULT_BUFFERS.mortality +
        DEFAULT_BUFFERS.verification < 100 ∧
      100 ≤ SEQUESTRATION_FACTORS .mangrove *
        ((100 - (DEFAULT_BUFFERS.uncertainty + DEFAULT_BUFFERS.mortality +
          DEFAULT_BUFFERS.verification)) / 100) * 20) ∧
    ∃ pa : ℤ,
      (calculateRequiredArea
          (calculateCarbonSequestration 100000 .mangrove 20 DEFAULT_BUFFERS).cumulative_absorption
          .mangrove 20 DEFAULT_BUFFERS).policy_area_needed = some pa ∧
      |(pa : ℚ) - 100000| ≤ 1 :=
  ⟨⟨by norm_num, by norm_num, by norm_num [DEFAULT_BUFFERS],
     by norm_num [DEFAULT_BUFFERS, SEQUESTRATION_FACTORS]⟩,
   C3_amended_roundtrip 100000 20 .mangrove DEFAULT_BUFFERS (by norm_num)
     (by norm_num) (by norm_num [DEFAULT_BUFFERS])
     (by norm_num [DEFAULT_BUFFERS, SEQUESTRATION_FACTORS])⟩

/-! ### Detector lemmas -/

lemma recentGrowthRate_of_short (l : List HistoricalSnapshot) (h : l.length < 2) :
    recentGrowthRate l = none := by
  match l, h with
  | [], _ => rfl
  | [a], _ => rfl

lemma recentGrowthRate_of_reverse (l : List HistoricalSnapshot)
    (a b : HistoricalSnapshot) (t : List HistoricalSnapshot)
    (hr : l.reverse = a :: b :: t) :
    recentGrowthRate l = some ((a.area_m2 - b.area_m2) / b.area_m2) := by
  have hl : l = (t.reverse ++ [b]) ++ [a] := by
    rw [← List.reverse_reverse l, hr]
    simp
  have h1 : l.getLast? = some a := by
    rw [hl]
    exact List.getLast?_concat _
  have h2 : l.dropLast.getLast? = some b := by
    rw [hl, List.dropLast_concat]
    exact List.getLast?_concat _
  rw [recentGrowthRate, h1, h2]

lemma length_of_reverse_cons_cons (l : List HistoricalSnapshot)
    (a b : HistoricalSnapshot) (t : List HistoricalSnapshot)
    (hr : l.reverse = a :: b :: t) : 2 ≤ l.length := by
  have := congrArg List.length hr
  rw [List.length_reverse] at this
  simp only [List.length_cons] at this
  omega

lemma detectAnomalies_impact (p : ProjectSnapshot) (l : List HistoricalSnapshot) :
    (detectAnomalies p l).credibility_impact =
      growthPenalty l + theoreticalMaxPenalty p + minimumAreaPenalty p := by
  rcases hr : l.reverse with _ | ⟨a, _ | ⟨b, t⟩⟩
  · have hl : l = [] := List.reverse_eq_nil_iff.mp hr
    subst hl
    simp [detectAnomalies, growthPenalty, recentGrowthRate,
      theoreticalMaxPenalty, minimumAreaPenalty]
    split_ifs <;> rfl
  · have hl : l = [a] := by rw [← List.reverse_reverse l, hr]; rfl
    subst hl
    simp [detectAnomalies, growthPenalty, recentGrowthRate,
      theoreticalMaxPenalty, minimumAreaPenalty]
    split_ifs <;> rfl
  · have hg := recentGrowthRate_of_reverse l a b t hr
    simp only [detectAnomalies, hr, growthPenalty, hg,
      theoreticalMaxPenalty, minimumAreaPenalty]
    split_ifs <;> rfl

lemma detectAnomalies_growth_flag (p : ProjectSnapshot)
    (l : List HistoricalSnapshot) :
    ("Unrealistic area expansion detected" ∈ (detectAnomalies p l).flags ↔
      ∃ r, recentGrowthRate l = some r ∧ 1 < r) := by
  rcases hr : l.reverse with _ | ⟨a, _ | ⟨b, t⟩⟩
  · have hl : l = [] := List.reverse_eq_nil_iff.mp hr
    subst hl
    constructor
    · intro hmem
      simp [detectAnomalies] at hmem
      rcases hmem with hmem | hmem <;> split at hmem <;> simp_all
    · rintro ⟨r, hr', _⟩
      simp [recentGrowthRate] at hr'
  · have hl : l = [a] := by rw [← List.reverse_reverse l, hr]; rfl
    subst hl
    constructor
    · intro hmem
      simp [detectAnomalies] at hmem
      rcases hmem with hmem | hmem <;> split at hmem <;> simp_all
    · rintro ⟨r, hr', _⟩
      simp [recentGrowthRate] at hr'
  · have hg := recentGrowthRate_of_reverse l a b t hr
    simp only [detectAnomalies, hr, hg]
    by_cases hgr : (a.area_m2 - b.area_m2) / b.area_m2 > 1
    · simp only [hgr, if_pos]
      constructor
      · intro _
        exact ⟨_, rfl, hgr⟩
      · intro _
        simp
    · simp only [hgr, if_neg, not_false_iff]
      constructor
      · intro hmem
        simp at hmem
        rcases hmem with hmem | hmem <;> split at hmem <;> simp_all
      · rintro ⟨r, hr', h1r⟩
        injection hr' with hr'
        subst hr'
        exact absurd h1r hgr

/-- C6: the growth-rate rule fires exactly when at least two historical
snapshots exist and the growth rate over the two most recent entries
exceeds 1; it then appends "Unrealistic area expansion detected" and adds
25 to `credibility_impact`; with fewer than two snapshots the rule is not
evaluated (no flag, no penalty contribution). -/
theorem C6_growth_rate_rule (p : ProjectSnapshot) (l : List HistoricalSnapshot) :
    ("Unrealistic area expansion detected" ∈ (detectAnomalies p l).flags ↔
       2 ≤ l.length ∧ ∃ r, recentGrowthRate l = some r ∧ 1 < r) ∧
    (detectAnomalies p l).credibility_impact =
      growthPenalty l + theoreticalMaxPenalty p + minimumAreaPenalty p ∧
    (l.length < 2 →
       "Unrealistic area expansion detected" ∉ (detectAnomalies p l).flags ∧
       (detectAnomalies p l).credibility_impact =
         theoreticalMaxPenalty p + minimumAreaPenalty p) := by
  have hflag := detectAnomalies_growth_flag p l
  have himp := detectAnomalies_impact p l
  refine ⟨?_, himp, ?_⟩
  · rw [hflag]
    constructor
    · rintro ⟨r, hr', h1r⟩
      refine ⟨?_, r, hr', h1r⟩
      by_contra hlen
      push_neg at hlen
      rw [recentGrowthRate_of_short l hlen] at hr'
      exact Option.noConfusion hr'
    · rintro ⟨_, hex⟩
      exact hex
  · intro hlen
    have hnone := recentGrowthRate_of_short l hlen
    constructor
    · rw [hflag]
      rintro ⟨r, hr', _⟩
      rw [hnone] at hr'
      exact Option.noConfusion hr'
    · have h0 : growthPenalty l = 0 := by simp only [growthPenalty, hnone]
      rw [himp, h0, zero_add]

/-- C9: on every call, `credibility_impact` is exactly the sum of the three
independent per-rule penalties (25 for growth, 30 for theoretical max,
10 for minimum area), hence always one of
{0, 10, 25, 30, 35, 40, 55, 65} and between 0 and 65. -/
theorem C9_credibility_impact_decomposition (p : ProjectSnapshot)
    (l : List HistoricalSnapshot) :
    (detectAnomalies p l).credibility_impact =
      growthPenalty l + theoreticalMaxPenalty p + minimumAreaPenalty p ∧
    (detectAnomalies p l).credibility_impact
      ∈ ([0, 10, 25, 30, 35, 40, 55, 65] : List ℤ) ∧
    0 ≤ (detectAnomalies p l).credibility_impact ∧
    (detectAnomalies p l).credibility_impact ≤ 65 := by
  have himp := detectAnomalies_impact p l
  have hg : growthPenalty l = 0 ∨ growthPenalty l = 25 := by
    cases hrg : recentGrowthRate l with
    | none => simp [growthPenalty, hrg]
    | some r =>
      simp only [growthPenalty, hrg]
      split_ifs <;> simp
  have ht : theoreticalMaxPenalty p = 0 ∨ theoreticalMaxPenalty p = 30 := by
    unfold theoreticalMaxPenalty
    split_ifs <;> simp
  have hm : minimumAreaPenalty p = 0 ∨ minimumAreaPenalty p = 10 := by
    unfold minimumAreaPenalty
    split_ifs <;> simp
  refine ⟨himp, ?_, ?_, ?_⟩ <;>
    rw [himp] <;> rcases hg with hg | hg <;> rcases ht with ht | ht <;>
      rcases hm with hm | hm <;> rw [hg, ht, hm] <;> decide

theorem C6_growth_rate_rule_witness :
    ("Unrealistic area expansion detected" ∈
        (detectAnomalies ⟨50000, .mangrove, ⟨10⟩⟩
          [⟨1000⟩, ⟨2500⟩]).flags ↔
      2 ≤ ([⟨1000⟩, ⟨2500⟩] : List HistoricalSnapshot).length ∧
        ∃ r, recentGrowthRate [⟨1000⟩, ⟨2500⟩] = some r ∧ 1 < r) ∧
    (detectAnomalies ⟨50000, .mangrove, ⟨10⟩⟩
        [⟨1000⟩, ⟨2500⟩]).credibility_impact =
      growthPenalty [⟨1000⟩, ⟨2500⟩] +
        theoreticalMaxPenalty ⟨50000, .mangrove, ⟨10⟩⟩ +
        minimumAreaPenalty ⟨50000, .mangrove, ⟨10⟩⟩ ∧
    (([⟨1000⟩, ⟨2500⟩] : List HistoricalSnapshot).length < 2 →
      "Unrealistic area expansion detected" ∉
        (detectAnomalies ⟨50000, .mangrove, ⟨10⟩⟩
          [⟨1000⟩, ⟨2500⟩]).flags ∧
      (detectAnomalies ⟨50000, .mangrove, ⟨10⟩⟩
          [⟨1000⟩, ⟨2500⟩]).credibility_impact =
        theoreticalMaxPenalty ⟨50000, .mangrove, ⟨10⟩⟩ +
          minimumAreaPenalty ⟨50000, .mangrove, ⟨10⟩⟩) :=
  C6_growth_rate_rule ⟨50000, .mangrove, ⟨10⟩⟩ [⟨1000⟩, ⟨2500⟩]
